import Mathlib

set_option autoImplicit false

/-!
Shallow embedding of the `stability_rs` client library (request builders,
JSON field emission and multipart body encoding) together with proofs of
the behavioural properties claimed for it.

Machine integers (`u32`) are modelled as `Nat`: every operation the code
performs on them (`%`, `<`, `>`) agrees with `Nat` on the whole `u32`
range, and no arithmetic that could overflow occurs.  `f32` values
(prompt weights, image strength) are only ever carried and rendered, never
computed with; they are modelled by the decimal string their `Display`
implementation produces.
-/

deriving instance DecidableEq for Except

namespace StabilityRs

/-- Embedding of `ClipGuidancePreset` from `api/rest/generation/mod.rs`. -/
inductive ClipGuidancePreset where
  | fastBlue
  | fastGreen
  | simple
  | slow
  | slower
  | slowest
  | none
  deriving DecidableEq, Repr

/-- The serde name of a `ClipGuidancePreset` (`rename_all = "SCREAMING_SNAKE_CASE"`). -/
def ClipGuidancePreset.serdeName : ClipGuidancePreset → String
  | .fastBlue => "FAST_BLUE"
  | .fastGreen => "FAST_GREEN"
  | .simple => "SIMPLE"
  | .slow => "SLOW"
  | .slower => "SLOWER"
  | .slowest => "SLOWEST"
  | .none => "NONE"

/-- The `Display` form of a `ClipGuidancePreset`. -/
def ClipGuidancePreset.display : ClipGuidancePreset → String
  | .fastBlue => "fast_blue"
  | .fastGreen => "fast_green"
  | .simple => "simple"
  | .slow => "slow"
  | .slower => "slower"
  | .slowest => "slowest"
  | .none => "none"

/-- Embedding of `ClipGuidancePreset::is_none`. -/
def ClipGuidancePreset.isNone : ClipGuidancePreset → Bool
  | .none => true
  | _ => false

/-- Embedding of `Sampler` from `api/rest/generation/mod.rs`. -/
inductive Sampler where
  | ddim
  | ddpm
  | kDpmpp2m
  | kDpmpp2sAncestral
  | kDpm2
  | kDpm2Ancestral
  | kEuler
  | kEAncestral
  | kHeun
  | kLms
  | none
  deriving DecidableEq, Repr

/-- The serde name of a `Sampler` (`SCREAMING_SNAKE_CASE` plus explicit renames). -/
def Sampler.serdeName : Sampler → String
  | .ddim => "DDIM"
  | .ddpm => "DDPM"
  | .kDpmpp2m => "K_DPMPP_2M"
  | .kDpmpp2sAncestral => "K_DPMPP_2S_ANCESTRAL"
  | .kDpm2 => "K_DPMP_2"
  | .kDpm2Ancestral => "K_DPMP_2_ANCESTRAL"
  | .kEuler => "K_EULER"
  | .kEAncestral => "K_EULER_ANCESTRAL"
  | .kHeun => "K_HEUN"
  | .kLms => "K_LMS"
  | .none => "NONE"

/-- The `Display` form of a `Sampler`. -/
def Sampler.display : Sampler → String
  | .ddim => "ddim"
  | .ddpm => "ddpm"
  | .kDpmpp2m => "k_dpmpp_2m"
  | .kDpmpp2sAncestral => "k_dpmpp_2s_ancestral"
  | .kDpm2 => "k_dpm_2"
  | .kDpm2Ancestral => "k_dpm_2_ancestral"
  | .kEuler => "k_euler"
  | .kEAncestral => "k_euler_ancestral"
  | .kHeun => "k_heun"
  | .kLms => "k_lms"
  | .none => "none"

/-- Embedding of `Sampler::is_none`. -/
def Sampler.isNone : Sampler → Bool
  | .none => true
  | _ => false

/-- Embedding of `StylePreset` from `api/rest/generation/mod.rs`. -/
inductive StylePreset where
  | threeDModel
  | anime
  | analogFilm
  | cinematic
  | comicBook
  | digitalArt
  | enhance
  | fantasyArt
  | isometric
  | lineArt
  | lowPoly
  | modelingCompound
  | neonPunk
  | origami
  | photographic
  | pixelArt
  | tileTexture
  deriving DecidableEq, Repr

/-- The serde / `Display` form of a `StylePreset` (`kebab-case`; the two agree). -/
def StylePreset.display : StylePreset → String
  | .threeDModel => "3d-model"
  | .anime => "anime"
  | .analogFilm => "analog-film"
  | .cinematic => "cinematic"
  | .comicBook => "comic-book"
  | .digitalArt => "digital-art"
  | .enhance => "enhance"
  | .fantasyArt => "fantasy-art"
  | .isometric => "isometric"
  | .lineArt => "line-art"
  | .lowPoly => "low-poly"
  | .modelingCompound => "modeling-compound"
  | .neonPunk => "neon-punk"
  | .origami => "origami"
  | .photographic => "photographic"
  | .pixelArt => "pixel-art"
  | .tileTexture => "tile-texture"

/-- Embedding of `TextPrompt`: the `f32` weight is carried as its rendered decimal form. -/
structure TextPrompt where
  text : String
  weight : String
  deriving DecidableEq, Repr

/-- Embedding of `ImageBuilderError` from `error.rs`. -/
inductive ImageBuilderError where
  | heightNotMultipleOf64 (v : Nat)
  | heightLessThan128 (v : Nat)
  | widthNotMultipleOf64 (v : Nat)
  | widthLessThan128 (v : Nat)
  | cfgScaleGreaterThan35 (v : Nat)
  | samplesGreaterThan10 (v : Nat)
  | stepsGreaterThan150 (v : Nat)
  | stepsLessThan10 (v : Nat)
  | stylePresetNotSet
  | textPromptEmpty
  | initImageReadError (s : String)
  | initImagePathNotSet
  | upscaleHeightLessThan512 (v : Nat)
  | upscaleWidthLessThan512 (v : Nat)
  | upscaleImagePathNotSet
  | upscaleWidthHeightConflict
  | maskSourceNotSet
  | maskImagePathNotSet
  deriving DecidableEq, Repr

/-- The `thiserror` display message of an `ImageBuilderError`. -/
def ImageBuilderError.message : ImageBuilderError → String
  | .heightNotMultipleOf64 v => "height must be a multiple of 64, but was " ++ toString v
  | .heightLessThan128 v => "height must not be less than 128, but was " ++ toString v
  | .widthNotMultipleOf64 v => "width must be a multiple of 64, but was " ++ toString v
  | .widthLessThan128 v => "width must not be less than 128, but was " ++ toString v
  | .cfgScaleGreaterThan35 v => "cfg_scale must be no greater than 35, but was " ++ toString v
  | .samplesGreaterThan10 v => "samples must be no greater than 10, but was " ++ toString v
  | .stepsGreaterThan150 v => "steps must be no greater than 150, but was " ++ toString v
  | .stepsLessThan10 v => "steps must be no less than 10, but was " ++ toString v
  | .stylePresetNotSet => "a style preset must be set"
  | .textPromptEmpty => "a text prompt must not be empty"
  | .initImageReadError s => "failed to read init image: " ++ s
  | .initImagePathNotSet => "init image path must be set"
  | .upscaleHeightLessThan512 v => "upscale height must be greater or equal to 512, but was " ++ toString v
  | .upscaleWidthLessThan512 v => "upscale width must be greater or equal to 512, but was " ++ toString v
  | .upscaleImagePathNotSet => "upscale image path must be set"
  | .upscaleWidthHeightConflict => "only one of width or height may be specified"
  | .maskSourceNotSet => "a mask source must be set"
  | .maskImagePathNotSet => "mask image path must be set when using a black or white mask source"

/-- A JSON value as it appears in the serialized request payloads. -/
inductive JValue where
  | num (n : Nat)
  | str (s : String)
  | prompts (ps : List TextPrompt)
  | extras (kvs : List (String × String))
  deriving DecidableEq, Repr

/-- Embedding of `TextToImage` from `api/rest/generation/text_to_img.rs`. -/
structure TextToImage where
  height : Nat
  width : Nat
  text_prompts : List TextPrompt
  cfg_scale : Nat
  clip_guidance_preset : ClipGuidancePreset
  sampler : Sampler
  samples : Nat
  seed : Nat
  steps : Nat
  style_preset : StylePreset
  extras : List (String × String)
  deriving DecidableEq, Repr

/-- The key/value pairs serde emits for a `TextToImage`, in struct declaration
order.  `sampler` carries `skip_serializing_if = "Sampler::is_none"` and
`extras` carries `skip_serializing_if = "HashMap::is_empty"`; the other
fields, `clip_guidance_preset` included, are emitted unconditionally. -/
def TextToImage.toJsonFields (t : TextToImage) : List (String × JValue) :=
  [("height", .num t.height), ("width", .num t.width),
   ("text_prompts", .prompts t.text_prompts), ("cfg_scale", .num t.cfg_scale),
   ("clip_guidance_preset", .str t.clip_guidance_preset.serdeName)]
  ++ (if t.sampler.isNone then [] else [("sampler", .str t.sampler.serdeName)])
  ++ [("samples", .num t.samples), ("seed", .num t.seed), ("steps", .num t.steps),
      ("style_preset", .str t.style_preset.display)]
  ++ (if t.extras.isEmpty then [] else [("extras", .extras t.extras)])

/-- Embedding of `TextToImageBuilder` from `api/rest/generation/text_to_img.rs`. -/
structure TextToImageBuilder where
  height : Option Nat
  width : Option Nat
  text_prompts : List TextPrompt
  cfg_scale : Option Nat
  clip_guidance_preset : Option ClipGuidancePreset
  sampler : Option Sampler
  samples : Option Nat
  seed : Option Nat
  steps : Option Nat
  style_preset : Option StylePreset
  extras : Option (List (String × String))
  deriving DecidableEq, Repr

namespace TextToImageBuilder

/-- Embedding of `TextToImageBuilder::new` (`Default::default`). -/
def new : TextToImageBuilder :=
  ⟨Option.none, Option.none, [], Option.none, Option.none, Option.none,
   Option.none, Option.none, Option.none, Option.none, Option.none⟩

/-- Embedding of `TextToImageBuilder::height`. -/
def setHeight (b : TextToImageBuilder) (height : Nat) :
    Except ImageBuilderError TextToImageBuilder :=
  if height % 64 ≠ 0 then
    .error (.heightNotMultipleOf64 height)
  else if height < 128 then
    .error (.heightLessThan128 height)
  else
    .ok { b with height := some height }

/-- Embedding of `TextToImageBuilder::width`. -/
def setWidth (b : TextToImageBuilder) (width : Nat) :
    Except ImageBuilderError TextToImageBuilder :=
  if width % 64 ≠ 0 then
    .error (.widthNotMultipleOf64 width)
  else if width < 128 then
    .error (.widthLessThan128 width)
  else
    .ok { b with width := some width }

/-- Embedding of `TextToImageBuilder::text_prompt`. -/
def addTextPrompt (b : TextToImageBuilder) (text weight : String) :
    Except ImageBuilderError TextToImageBuilder :=
  .ok { b with text_prompts := b.text_prompts ++ [⟨text, weight⟩] }

/-- Embedding of `TextToImageBuilder::cfg_scale`. -/
def setCfgScale (b : TextToImageBuilder) (cfg_scale : Nat) :
    Except ImageBuilderError TextToImageBuilder :=
  if cfg_scale > 35 then
    .error (.cfgScaleGreaterThan35 cfg_scale)
  else
    .ok { b with cfg_scale := some cfg_scale }

/-- Embedding of `TextToImageBuilder::clip_guidance_preset`. -/
def setClipGuidancePreset (b : TextToImageBuilder) (p : ClipGuidancePreset) :
    Except ImageBuilderError TextToImageBuilder :=
  .ok { b with clip_guidance_preset := some p }

/-- Embedding of `TextToImageBuilder::sampler`. -/
def setSampler (b : TextToImageBuilder) (s : Sampler) :
    Except ImageBuilderError TextToImageBuilder :=
  .ok { b with sampler := some s }

/-- Embedding of `TextToImageBuilder::samples`. -/
def setSamples (b : TextToImageBuilder) (samples : Nat) :
    Except ImageBuilderError TextToImageBuilder :=
  if samples > 10 then
    .error (.samplesGreaterThan10 samples)
  else
    .ok { b with samples := some samples }

/-- Embedding of `TextToImageBuilder::seed`. -/
def setSeed (b : TextToImageBuilder) (seed : Nat) :
    Except ImageBuilderError TextToImageBuilder :=
  .ok { b with seed := some seed }

/-- Embedding of `TextToImageBuilder::steps`. -/
def setSteps (b : TextToImageBuilder) (steps : Nat) :
    Except ImageBuilderError TextToImageBuilder :=
  if steps > 150 then
    .error (.stepsGreaterThan150 steps)
  else if steps < 10 then
    .error (.stepsLessThan10 steps)
  else
    .ok { b with steps := some steps }

/-- Embedding of `TextToImageBuilder::style_preset`. -/
def setStylePreset (b : TextToImageBuilder) (p : StylePreset) :
    Except ImageBuilderError TextToImageBuilder :=
  .ok { b with style_preset := some p }

/-- Embedding of `TextToImageBuilder::extras`. -/
def setExtras (b : TextToImageBuilder) (extras : List (String × String)) :
    Except ImageBuilderError TextToImageBuilder :=
  .ok { b with extras := some extras }

/-- Embedding of `TextToImageBuilder::build`. -/
def build (b : TextToImageBuilder) : Except ImageBuilderError TextToImage :=
  match b.style_preset with
  | Option.none => .error .stylePresetNotSet
  | some sp =>
    match b.text_prompts with
    | [] => .error .textPromptEmpty
    | p :: _ =>
      if p.text = "" then .error .textPromptEmpty
      else
        .ok { height := b.height.getD 1024
              width := b.width.getD 1024
              cfg_scale := b.cfg_scale.getD 7
              clip_guidance_preset := b.clip_guidance_preset.getD ClipGuidancePreset.none
              sampler := b.sampler.getD Sampler.none
              samples := b.samples.getD 1
              seed := b.seed.getD 0
              steps := b.steps.getD 50
              style_preset := sp
              text_prompts := b.text_prompts
              extras := b.extras.getD [] }

end TextToImageBuilder

/-- An I/O failure while reading a source image file. -/
inductive IoError where
  | fileNotFound (path : String)
  deriving DecidableEq, Repr

/-- The filesystem is modelled as a finite map from paths to file contents
(file bytes are carried as a `String`). -/
def Fs : Type := String → Option String

def crlf : String := "\r\n"

/-- The chunk `write!(data, "--{}\r\n", boundary)` emits. -/
def partOpen (boundary : String) : String := "--" ++ boundary ++ crlf

/-- The chunk `write!(data, "--{}--\r\n", boundary)` emits. -/
def closeMarker (boundary : String) : String := "--" ++ boundary ++ "--" ++ crlf

/-- The chunk a `Content-Disposition` text-field write emits. -/
def dispText (name value : String) : String :=
  "Content-Disposition: form-data; name=\"" ++ name ++ "\"" ++ crlf ++ crlf ++ value ++ crlf

/-- The chunks a PNG file field emits: the disposition line, the content-type
line, the file bytes and the trailing CRLF. -/
def dispFilePng (name path content : String) : String :=
  "Content-Disposition: form-data; name=\"" ++ name ++ "\"; filename=\"" ++ path ++ "\"" ++ crlf
  ++ "Content-Type: image/png" ++ crlf ++ crlf ++ content ++ crlf

/-- Concatenation of a list of strings. -/
def concatAll : List String → String
  | [] => ""
  | s :: rest => s ++ concatAll rest

/-- The chunks the `for (i, prompts) in self.text_prompts.iter().enumerate()`
loop of `to_multipart_form_data` emits, starting at index `i`. -/
def promptChunks (boundary : String) : Nat → List TextPrompt → List String
  | _, [] => []
  | i, p :: rest =>
    partOpen boundary ::
    dispText ("text_prompts[" ++ toString i ++ "][text]") p.text ::
    partOpen boundary ::
    dispText ("text_prompts[" ++ toString i ++ "][weight]") p.weight ::
    promptChunks boundary (i + 1) rest

/-- One part of a multipart body: its field name and its payload. -/
inductive MPartSpec where
  | text (name value : String)
  | filePng (name path content : String)
  deriving DecidableEq, Repr

/-- The field name of a part. -/
def MPartSpec.name : MPartSpec → String
  | .text n _ => n
  | .filePng n _ _ => n

/-- The byte payload of a part (everything after its opening boundary line). -/
def MPartSpec.render : MPartSpec → String
  | .text n v => dispText n v
  | .filePng n p c => dispFilePng n p c

/-- A multipart body in which every part opens with `"--" ++ boundary ++ CRLF`
and one terminal `"--" ++ boundary ++ "--" ++ CRLF` closes the body. -/
def framedBody (boundary : String) (parts : List MPartSpec) : String :=
  concatAll (parts.map (fun p => partOpen boundary ++ p.render)) ++ closeMarker boundary

/-- The structured parts the enumerated text-prompt loop contributes. -/
def promptParts : Nat → List TextPrompt → List MPartSpec
  | _, [] => []
  | i, p :: rest =>
    .text ("text_prompts[" ++ toString i ++ "][text]") p.text ::
    .text ("text_prompts[" ++ toString i ++ "][weight]") p.weight ::
    promptParts (i + 1) rest

/-- Embedding of `ImageMode` from `api/rest/generation/img_to_img.rs`. -/
inductive ImageMode where
  | imageStrength
  | stepSchedule
  deriving DecidableEq, Repr

/-- The `Display` form of an `ImageMode`. -/
def ImageMode.display : ImageMode → String
  | .imageStrength => "image_strength"
  | .stepSchedule => "step_schedule"

/-- Embedding of `ImageToImage` from `api/rest/generation/img_to_img.rs`; the `f32` image
strength is carried as its rendered decimal form. -/
structure ImageToImage where
  text_prompts : List TextPrompt
  init_image : String
  init_image_mode : ImageMode
  image_strength : String
  cfg_scale : Nat
  clip_guidance_preset : ClipGuidancePreset
  sampler : Sampler
  samples : Nat
  seed : Nat
  steps : Nat
  style_preset : StylePreset
  extras : List (String × String)
  deriving DecidableEq, Repr

namespace ImageToImage

/-- The chunks `ImageToImage::to_multipart_form_data` writes, one list entry
per `write!` call, in source order; `content` stands for the bytes
`read_to_end` appends from the init image file. -/
def chunks (t : ImageToImage) (boundary content : String) : List String :=
  promptChunks boundary 0 t.text_prompts ++
  [partOpen boundary, dispText "init_image_mode" t.init_image_mode.display.toUpper] ++
  (if t.init_image_mode = ImageMode.imageStrength then
    [partOpen boundary, dispText "image_strength" t.image_strength]
  else []) ++
  [partOpen boundary, dispText "cfg_scale" (toString t.cfg_scale),
   partOpen boundary, dispText "samples" (toString t.samples),
   partOpen boundary, dispText "steps" (toString t.steps)] ++
  (if t.sampler = Sampler.none then []
  else [partOpen boundary, dispText "sampler" t.sampler.display.toUpper]) ++
  [partOpen boundary, dispText "clip_guidance_preset" t.clip_guidance_preset.display.toUpper,
   partOpen boundary, dispText "style_preset" t.style_preset.display,
   partOpen boundary, dispText "seed" (toString t.seed),
   partOpen boundary, dispFilePng "init_image" t.init_image content,
   closeMarker boundary]

/-- Embedding of `ImageToImage::to_multipart_form_data`: opening the init image file fails
when the path is absent from the filesystem, otherwise the body is the
concatenation of the written chunks. -/
def to_multipart_form_data (t : ImageToImage) (boundary : String) (fs : Fs) :
    Except IoError String :=
  match fs t.init_image with
  | Option.none => .error (.fileNotFound t.init_image)
  | some content => .ok (concatAll (t.chunks boundary content))

/-- The structured decomposition of the image-to-image body into named parts. -/
def partSpecs (t : ImageToImage) (content : String) : List MPartSpec :=
  promptParts 0 t.text_prompts ++
  [.text "init_image_mode" t.init_image_mode.display.toUpper] ++
  (if t.init_image_mode = ImageMode.imageStrength then
    [.text "image_strength" t.image_strength]
  else []) ++
  [.text "cfg_scale" (toString t.cfg_scale),
   .text "samples" (toString t.samples),
   .text "steps" (toString t.steps)] ++
  (if t.sampler = Sampler.none then []
  else [.text "sampler" t.sampler.display.toUpper]) ++
  [.text "clip_guidance_preset" t.clip_guidance_preset.display.toUpper,
   .text "style_preset" t.style_preset.display,
   .text "seed" (toString t.seed),
   .filePng "init_image" t.init_image content]

end ImageToImage

/-- Embedding of `ImageToImageBuilder` from `api/rest/generation/img_to_img.rs`. -/
structure ImageToImageBuilder where
  init_image : Option String
  init_image_mode : Option ImageMode
  image_strength : Option String
  text_prompts : List TextPrompt
  cfg_scale : Option Nat
  clip_guidance_preset : Option ClipGuidancePreset
  sampler : Option Sampler
  samples : Option Nat
  seed : Option Nat
  steps : Option Nat
  style_preset : Option StylePreset
  extras : Option (List (String × String))
  deriving DecidableEq, Repr

namespace ImageToImageBuilder

/-- Embedding of `ImageToImageBuilder::new` (`Default::default`). -/
def new : ImageToImageBuilder :=
  ⟨Option.none, Option.none, Option.none, [], Option.none, Option.none,
   Option.none, Option.none, Option.none, Option.none, Option.none, Option.none⟩

/-- Embedding of `ImageToImageBuilder::cfg_scale`. -/
def setCfgScale (b : ImageToImageBuilder) (cfg_scale : Nat) :
    Except ImageBuilderError ImageToImageBuilder :=
  if cfg_scale > 35 then
    .error (.cfgScaleGreaterThan35 cfg_scale)
  else
    .ok { b with cfg_scale := some cfg_scale }

/-- Embedding of `ImageToImageBuilder::samples`. -/
def setSamples (b : ImageToImageBuilder) (samples : Nat) :
    Except ImageBuilderError ImageToImageBuilder :=
  if samples > 10 then
    .error (.samplesGreaterThan10 samples)
  else
    .ok { b with samples := some samples }

/-- Embedding of `ImageToImageBuilder::steps`: unlike the other builders there is no lower
bound check. -/
def setSteps (b : ImageToImageBuilder) (steps : Nat) :
    Except ImageBuilderError ImageToImageBuilder :=
  if steps > 150 then
    .error (.stepsGreaterThan150 steps)
  else
    .ok { b with steps := some steps }

/-- Embedding of `ImageToImageBuilder::build`. -/
def build (b : ImageToImageBuilder) : Except ImageBuilderError ImageToImage :=
  match b.init_image with
  | Option.none => .error .initImagePathNotSet
  | some img =>
    match b.style_preset with
    | Option.none => .error .stylePresetNotSet
    | some sp =>
      match b.text_prompts with
      | [] => .error .textPromptEmpty
      | p :: _ =>
        if p.text = "" then .error .textPromptEmpty
        else
          .ok { text_prompts := b.text_prompts
                init_image := img
                init_image_mode := b.init_image_mode.getD ImageMode.imageStrength
                image_strength := b.image_strength.getD "0"
                cfg_scale := b.cfg_scale.getD 7
                clip_guidance_preset := b.clip_guidance_preset.getD ClipGuidancePreset.none
                sampler := b.sampler.getD Sampler.none
                samples := b.samples.getD 1
                seed := b.seed.getD 0
                steps := b.steps.getD 50
                style_preset := sp
                extras := b.extras.getD [] }

end ImageToImageBuilder

/-- Embedding of `UpscaleEngine` from `api/rest/generation/upscale.rs`. -/
inductive UpscaleEngine where
  | esrganV1X2Plus
  | stableDiffusionX4LatentUpscaler
  deriving DecidableEq, Repr

/-- The `Display` form of an `UpscaleEngine`. -/
def UpscaleEngine.display : UpscaleEngine → String
  | .esrganV1X2Plus => "esrgan-v1-x2plus"
  | .stableDiffusionX4LatentUpscaler => "stable-diffusion-x4-latent-upscaler"

/-- Embedding of `Upscaler` from `api/rest/generation/upscale.rs`. -/
structure Upscaler where
  image : String
  height : Nat
  width : Nat
  text_prompts : List TextPrompt
  cfg_scale : Nat
  seed : Nat
  steps : Nat
  deriving DecidableEq, Repr

namespace Upscaler

/-- The chunks `Upscaler::to_multipart_form_data` writes, one list entry per
`write!` call, in source order; the prompt, `cfg_scale`, `steps` and `seed`
blocks are each guarded by `engine == UpscaleEngine::StableDiffusionX4LatentUpscaler`
and the `height`/`width` parts by the value being non-zero. -/
def chunks (u : Upscaler) (boundary : String) (engine : UpscaleEngine)
    (content : String) : List String :=
  (if engine = UpscaleEngine.stableDiffusionX4LatentUpscaler then
    promptChunks boundary 0 u.text_prompts
  else []) ++
  (if u.height ≠ 0 then [partOpen boundary, dispText "height" (toString u.height)] else []) ++
  (if u.width ≠ 0 then [partOpen boundary, dispText "width" (toString u.width)] else []) ++
  (if engine = UpscaleEngine.stableDiffusionX4LatentUpscaler then
    [partOpen boundary, dispText "cfg_scale" (toString u.cfg_scale)]
  else []) ++
  (if engine = UpscaleEngine.stableDiffusionX4LatentUpscaler then
    [partOpen boundary, dispText "steps" (toString u.steps)]
  else []) ++
  (if engine = UpscaleEngine.stableDiffusionX4LatentUpscaler then
    [partOpen boundary, dispText "seed" (toString u.seed)]
  else []) ++
  [partOpen boundary, dispFilePng "image" u.image content,
   closeMarker boundary]

/-- Embedding of `Upscaler::to_multipart_form_data`. -/
def to_multipart_form_data (u : Upscaler) (boundary : String)
    (engine : UpscaleEngine) (fs : Fs) : Except IoError String :=
  match fs u.image with
  | Option.none => .error (.fileNotFound u.image)
  | some content => .ok (concatAll (u.chunks boundary engine content))

/-- The structured decomposition of the upscale body into named parts. -/
def partSpecs (u : Upscaler) (engine : UpscaleEngine) (content : String) :
    List MPartSpec :=
  (if engine = UpscaleEngine.stableDiffusionX4LatentUpscaler then
    promptParts 0 u.text_prompts
  else []) ++
  (if u.height ≠ 0 then [.text "height" (toString u.height)] else []) ++
  (if u.width ≠ 0 then [.text "width" (toString u.width)] else []) ++
  (if engine = UpscaleEngine.stableDiffusionX4LatentUpscaler then
    [.text "cfg_scale" (toString u.cfg_scale)]
  else []) ++
  (if engine = UpscaleEngine.stableDiffusionX4LatentUpscaler then
    [.text "steps" (toString u.steps)]
  else []) ++
  (if engine = UpscaleEngine.stableDiffusionX4LatentUpscaler then
    [.text "seed" (toString u.seed)]
  else []) ++
  [.filePng "image" u.image content]

/-- The field names present in the encoded upscale body. -/
def partNames (u : Upscaler) (engine : UpscaleEngine) (content : String) :
    List String :=
  (u.partSpecs engine content).map MPartSpec.name

end Upscaler

/-- Embedding of `UpscalerBuilder` from `api/rest/generation/upscale.rs`. -/
structure UpscalerBuilder where
  image : Option String
  height : Option Nat
  width : Option Nat
  text_prompts : List TextPrompt
  cfg_scale : Option Nat
  seed : Option Nat
  steps : Option Nat
  deriving DecidableEq, Repr

namespace UpscalerBuilder

/-- Embedding of `UpscalerBuilder::new` (`Default::default`). -/
def new : UpscalerBuilder :=
  ⟨Option.none, Option.none, Option.none, [], Option.none, Option.none, Option.none⟩

/-- Embedding of `UpscalerBuilder::image`. -/
def setImage (b : UpscalerBuilder) (image : String) :
    Except ImageBuilderError UpscalerBuilder :=
  .ok { b with image := some image }

/-- Embedding of `UpscalerBuilder::height`. -/
def setHeight (b : UpscalerBuilder) (height : Nat) :
    Except ImageBuilderError UpscalerBuilder :=
  if height < 512 then
    .error (.upscaleHeightLessThan512 height)
  else
    .ok { b with height := some height }

/-- Embedding of `UpscalerBuilder::width`. -/
def setWidth (b : UpscalerBuilder) (width : Nat) :
    Except ImageBuilderError UpscalerBuilder :=
  if width < 512 then
    .error (.upscaleWidthLessThan512 width)
  else
    .ok { b with width := some width }

/-- Embedding of `UpscalerBuilder::text_prompt`. -/
def addTextPrompt (b : UpscalerBuilder) (text weight : String) :
    Except ImageBuilderError UpscalerBuilder :=
  .ok { b with text_prompts := b.text_prompts ++ [⟨text, weight⟩] }

/-- Embedding of `UpscalerBuilder::cfg_scale`. -/
def setCfgScale (b : UpscalerBuilder) (cfg_scale : Nat) :
    Except ImageBuilderError UpscalerBuilder :=
  if cfg_scale > 35 then
    .error (.cfgScaleGreaterThan35 cfg_scale)
  else
    .ok { b with cfg_scale := some cfg_scale }

/-- Embedding of `UpscalerBuilder::seed`. -/
def setSeed (b : UpscalerBuilder) (seed : Nat) :
    Except ImageBuilderError UpscalerBuilder :=
  .ok { b with seed := some seed }

/-- Embedding of `UpscalerBuilder::steps`. -/
def setSteps (b : UpscalerBuilder) (steps : Nat) :
    Except ImageBuilderError UpscalerBuilder :=
  if steps > 150 then
    .error (.stepsGreaterThan150 steps)
  else if steps < 10 then
    .error (.stepsLessThan10 steps)
  else
    .ok { b with steps := some steps }

/-- Embedding of `UpscalerBuilder::build`. -/
def build (b : UpscalerBuilder) : Except ImageBuilderError Upscaler :=
  match b.image with
  | Option.none => .error .upscaleImagePathNotSet
  | some img =>
    if b.width.isSome ∧ b.height.isSome then
      .error .upscaleWidthHeightConflict
    else
      .ok { image := img
            height := b.height.getD 0
            width := b.width.getD 0
            text_prompts := b.text_prompts
            cfg_scale := b.cfg_scale.getD 7
            seed := b.seed.getD 0
            steps := b.steps.getD 50 }

end UpscalerBuilder

/-- Embedding of `MaskSource` from `api/rest/generation/masking.rs`. -/
inductive MaskSource where
  | maskImageBlack
  | maskImageWhite
  | initImageAlpha
  deriving DecidableEq, Repr

/-- The `Display` form of a `MaskSource`. -/
def MaskSource.display : MaskSource → String
  | .maskImageBlack => "mask_image_black"
  | .maskImageWhite => "mask_image_white"
  | .initImageAlpha => "init_image_alpha"

/-- One accumulated part of the multipart encoder. -/
inductive MPart where
  | text (name value : String)
  | file (name path ext content : String)
  deriving DecidableEq, Repr

/-- The field name of an accumulated part. -/
def MPart.name : MPart → String
  | .text n _ => n
  | .file n _ _ _ => n

/-- Whether an accumulated part is a file part. -/
def MPart.isFile : MPart → Bool
  | .text _ _ => false
  | .file _ _ _ _ => true

/-- Modelled from the spec: the file extension a path carries, if any (the
`support` module derives the `Content-Type` of a file part from it and fails when
the path has no extension). -/
def extOf (path : String) : Option String :=
  match (path.splitOn ".").reverse with
  | [] => Option.none
  | [_] => Option.none
  | ext :: _ => some ext

/-- Modelled from the spec: the `MultipartFormData` accumulator of the
`support` module of the repository (declared `pub mod support` in `lib.rs` but not
present under `src/`): a boundary generated once per body and the ordered
sequence of parts added so far, with `end_body` marking the closing boundary
marker appended. -/
structure MultipartFormData where
  boundary : String
  parts : List MPart
  ended : Bool
  deriving DecidableEq, Repr

namespace MultipartFormData

/-- Modelled from the spec: `MultipartFormData::new`; the boundary is a fixed
string prefixed to a randomly drawn 64-bit integer formatted as decimal. -/
def new (rand : Nat) : MultipartFormData :=
  ⟨"-----------------------------" ++ toString (rand % 2 ^ 64), [], false⟩

/-- Modelled from the spec: `add_text(name, value)` appends a
boundary-delimited text part. -/
def add_text (fd : MultipartFormData) (name value : String) : MultipartFormData :=
  { fd with parts := fd.parts ++ [.text name value] }

/-- Modelled from the spec: `add_file(name, path)` appends a file part whose
`Content-Type` derives from the extension of the path (an error when there is
none) and whose payload is the content of the file (an error when the file cannot
be read). -/
def add_file (fd : MultipartFormData) (fs : Fs) (name path : String) :
    Except String MultipartFormData :=
  match extOf path with
  | Option.none => .error ("file has no extension: " ++ path)
  | some ext =>
    match fs path with
    | Option.none => .error ("failed to read file: " ++ path)
    | some content => .ok { fd with parts := fd.parts ++ [.file name path ext content] }

/-- Modelled from the spec: `end_body()` appends the closing boundary marker. -/
def end_body (fd : MultipartFormData) : MultipartFormData :=
  { fd with ended := true }

/-- The enumerated text-prompt loop of `Masker::to_multipart_form_data`. -/
def addPromptTexts : MultipartFormData → Nat → List TextPrompt → MultipartFormData
  | fd, _, [] => fd
  | fd, i, p :: rest =>
    addPromptTexts
      ((fd.add_text ("text_prompts[" ++ toString i ++ "][text]") p.text).add_text
        ("text_prompts[" ++ toString i ++ "][weight]") p.weight)
      (i + 1) rest

/-- The extras loop of `Masker::to_multipart_form_data`. -/
def addExtras : MultipartFormData → List (String × String) → MultipartFormData
  | fd, [] => fd
  | fd, (k, v) :: rest => addExtras (fd.add_text k v) rest

end MultipartFormData

/-- Embedding of `Masker` from `api/rest/generation/masking.rs`. -/
structure Masker where
  text_prompts : List TextPrompt
  init_image : String
  mask_source : MaskSource
  mask_image : String
  cfg_scale : Nat
  clip_guidance_preset : ClipGuidancePreset
  sampler : Sampler
  samples : Nat
  seed : Nat
  steps : Nat
  style_preset : StylePreset
  extras : List (String × String)
  deriving DecidableEq, Repr

namespace Masker

/-- The text-field stage of `Masker::to_multipart_form_data`: every
`add_text` call in source order, then the extras loop, then the enumerated
prompt loop. -/
def textFields (m : Masker) (rand : Nat) : MultipartFormData :=
  let fd := MultipartFormData.new rand
  let fd := fd.add_text "mask_source" m.mask_source.display.toUpper
  let fd := fd.add_text "cfg_scale" (toString m.cfg_scale)
  let fd := fd.add_text "samples" (toString m.samples)
  let fd := fd.add_text "seed" (toString m.seed)
  let fd := fd.add_text "steps" (toString m.steps)
  let fd := fd.add_text "style_preset" m.style_preset.display
  let fd := fd.add_text "clip_guidance_preset" m.clip_guidance_preset.display.toUpper
  let fd := if m.sampler ≠ Sampler.none then
      fd.add_text "sampler" m.sampler.display
    else fd
  let fd := fd.addExtras m.extras
  fd.addPromptTexts 0 m.text_prompts

/-- Embedding of `Masker::to_multipart_form_data`, against the spec-modelled encoder:
the text fields, then the init image file, then — only when the mask source
is not `InitImageAlpha` — the mask image file, then `end_body`. -/
def to_multipart_form_data (m : Masker) (fs : Fs) (rand : Nat) :
    Except String MultipartFormData := do
  let fd := m.textFields rand
  let fd ← fd.add_file fs "init_image" m.init_image
  let fd ← if m.mask_source ≠ MaskSource.initImageAlpha then
      fd.add_file fs "mask_image" m.mask_image
    else pure fd
  pure fd.end_body

end Masker

/-- Embedding of `MaskerBuilder` from `api/rest/generation/masking.rs`. -/
structure MaskerBuilder where
  text_prompts : List TextPrompt
  init_image : Option String
  mask_source : Option MaskSource
  mask_image : Option String
  cfg_scale : Option Nat
  clip_guidance_preset : Option ClipGuidancePreset
  sampler : Option Sampler
  samples : Option Nat
  seed : Option Nat
  steps : Option Nat
  style_preset : Option StylePreset
  extras : Option (List (String × String))
  deriving DecidableEq, Repr

namespace MaskerBuilder

/-- Embedding of `MaskerBuilder::new` (`Default::default`). -/
def new : MaskerBuilder :=
  ⟨[], Option.none, Option.none, Option.none, Option.none, Option.none,
   Option.none, Option.none, Option.none, Option.none, Option.none, Option.none⟩

/-- Embedding of `MaskerBuilder::init_image_path`. -/
def setInitImagePath (b : MaskerBuilder) (path : String) :
    Except ImageBuilderError MaskerBuilder :=
  .ok { b with init_image := some path }

/-- Embedding of `MaskerBuilder::mask_source`. -/
def setMaskSource (b : MaskerBuilder) (src : MaskSource) :
    Except ImageBuilderError MaskerBuilder :=
  .ok { b with mask_source := some src }

/-- Embedding of `MaskerBuilder::mask_image`. -/
def setMaskImage (b : MaskerBuilder) (path : String) :
    Except ImageBuilderError MaskerBuilder :=
  .ok { b with mask_image := some path }

/-- Embedding of `MaskerBuilder::cfg_scale`. -/
def setCfgScale (b : MaskerBuilder) (cfg_scale : Nat) :
    Except ImageBuilderError MaskerBuilder :=
  if cfg_scale > 35 then
    .error (.cfgScaleGreaterThan35 cfg_scale)
  else
    .ok { b with cfg_scale := some cfg_scale }

/-- Embedding of `MaskerBuilder::samples`. -/
def setSamples (b : MaskerBuilder) (samples : Nat) :
    Except ImageBuilderError MaskerBuilder :=
  if samples > 10 then
    .error (.samplesGreaterThan10 samples)
  else
    .ok { b with samples := some samples }

/-- Embedding of `MaskerBuilder::seed`. -/
def setSeed (b : MaskerBuilder) (seed : Nat) :
    Except ImageBuilderError MaskerBuilder :=
  .ok { b with seed := some seed }

/-- Embedding of `MaskerBuilder::steps`. -/
def setSteps (b : MaskerBuilder) (steps : Nat) :
    Except ImageBuilderError MaskerBuilder :=
  if steps > 150 then
    .error (.stepsGreaterThan150 steps)
  else if steps < 10 then
    .error (.stepsLessThan10 steps)
  else
    .ok { b with steps := some steps }

/-- Embedding of `MaskerBuilder::style_preset`. -/
def setStylePreset (b : MaskerBuilder) (p : StylePreset) :
    Except ImageBuilderError MaskerBuilder :=
  .ok { b with style_preset := some p }

/-- Embedding of `MaskerBuilder::text_prompt`. -/
def addTextPrompt (b : MaskerBuilder) (text weight : String) :
    Except ImageBuilderError MaskerBuilder :=
  .ok { b with text_prompts := b.text_prompts ++ [⟨text, weight⟩] }

/-- Embedding of `MaskerBuilder::build`. -/
def build (b : MaskerBuilder) : Except ImageBuilderError Masker :=
  match b.init_image with
  | Option.none => .error .initImagePathNotSet
  | some img =>
    match b.style_preset with
    | Option.none => .error .stylePresetNotSet
    | some sp =>
      match b.text_prompts with
      | [] => .error .textPromptEmpty
      | p :: _ =>
        if p.text = "" then .error .textPromptEmpty
        else
          match b.mask_source with
          | Option.none => .error .maskSourceNotSet
          | some src =>
            if (src = MaskSource.maskImageBlack ∨ src = MaskSource.maskImageWhite) ∧
                b.mask_image.isNone then
              .error .maskImagePathNotSet
            else
              .ok { text_prompts := b.text_prompts
                    init_image := img
                    mask_source := src
                    mask_image := b.mask_image.getD ""
                    cfg_scale := b.cfg_scale.getD 7
                    clip_guidance_preset := b.clip_guidance_preset.getD ClipGuidancePreset.none
                    sampler := b.sampler.getD Sampler.none
                    samples := b.samples.getD 1
                    seed := b.seed.getD 0
                    steps := b.steps.getD 50
                    style_preset := sp
                    extras := b.extras.getD [] }

end MaskerBuilder

/-- Embedding of `Client` from `api/rest/client.rs`; the URL is carried as its string
form, the method as its token and the header map as an ordered list. -/
structure Client where
  url : String
  method : String
  headers : List (String × String)
  deriving DecidableEq, Repr

/-- Embedding of `Error` from `error.rs`, restricted to the variant the client builder
produces. -/
inductive ClientError where
  | clientBuildError (msg : String)
  deriving DecidableEq, Repr

/-- Embedding of `ClientBuilder` from `api/rest/client.rs`. -/
structure ClientBuilder where
  url : Option String
  method : Option String
  headers : Option (List (String × String))
  deriving DecidableEq, Repr

namespace ClientBuilder

/-- Embedding of `ClientBuilder::default`: no URL, no method, a header map holding the
`host` header. -/
def base : ClientBuilder :=
  ⟨Option.none, Option.none, some [("host", "api.stability.ai")]⟩

/-- Embedding of `ClientBuilder::new` with the credential read from the environment:
the default builder plus the `authorization` header. -/
def new (apikey : String) : ClientBuilder :=
  { base with headers := some [("host", "api.stability.ai"), ("authorization", apikey)] }

/-- Embedding of `ClientBuilder::path`: the URL is the base authority, the version segment
and the supplied path. -/
def setPath (b : ClientBuilder) (path : String) : ClientBuilder :=
  { b with url := some ("https://api.stability.ai" ++ "/v1" ++ path) }

/-- Embedding of `ClientBuilder::method`. -/
def setMethod (b : ClientBuilder) (method : String) : ClientBuilder :=
  { b with method := some method }

/-- Embedding of `ClientBuilder::header`: appends to the accumulated header map. -/
def addHeader (b : ClientBuilder) (name value : String) : ClientBuilder :=
  { b with headers := some ((b.headers.getD []) ++ [(name, value)]) }

/-- Embedding of `ClientBuilder::build`.  The `headers.unwrap()` panic the source would hit
on a builder without a header map is modelled as `Option.none`; every builder
the constructors produce carries a header map. -/
def build (b : ClientBuilder) : Option (Except ClientError Client) :=
  match b.url with
  | Option.none => some (.error (.clientBuildError "url is not set"))
  | some url =>
    match b.headers with
    | Option.none => Option.none
    | some hs => some (.ok ⟨url, b.method.getD "GET", hs⟩)

end ClientBuilder

/-- A filesystem on which every path holds the content `"IMG"`. -/
def sampleFs : Fs := fun _ => some "IMG"

/-- A concrete image-to-image request. -/
def sampleImageToImage : ImageToImage :=
  ⟨[⟨"a crab", "0.5"⟩], "init_image.png", ImageMode.imageStrength, "0.35", 7,
   ClipGuidancePreset.none, Sampler.none, 1, 0, 50, StylePreset.fantasyArt, []⟩

/-- The upscaler built from a builder on which only the image path was set. -/
def sampleUpscaler : Upscaler := ⟨"img.png", 0, 0, [], 7, 0, 50⟩

/-- The builder state of the end-to-end text-to-image scenario: height 1024,
width 1024, one prompt `"a castle"`, style preset digital-art, everything
else left unset. -/
def castleBuilder : TextToImageBuilder :=
  ⟨some 1024, some 1024, [⟨"a castle", "1"⟩], Option.none, Option.none, Option.none,
   Option.none, Option.none, Option.none, some StylePreset.digitalArt, Option.none⟩

/-- The end-to-end scenario run through the real setter chain. -/
def castleBuild : Except ImageBuilderError TextToImage := do
  let b := TextToImageBuilder.new
  let b ← b.setHeight 1024
  let b ← b.setWidth 1024
  let b ← b.addTextPrompt "a castle" "1"
  let b ← b.setStylePreset StylePreset.digitalArt
  b.build

/-- The request the end-to-end scenario builds. -/
def castleImage : TextToImage :=
  ⟨1024, 1024, [⟨"a castle", "1"⟩], 7, ClipGuidancePreset.none, Sampler.none,
   1, 0, 50, StylePreset.digitalArt, []⟩

/-- A masker builder selecting the black mask source without a mask image. -/
def blackMaskBuilder : MaskerBuilder :=
  ⟨[⟨"a crab", "1"⟩], some "init.png", some MaskSource.maskImageBlack, Option.none,
   Option.none, Option.none, Option.none, Option.none, Option.none, Option.none,
   some StylePreset.fantasyArt, Option.none⟩

/-- A masker builder deriving the mask from the init image alpha channel. -/
def alphaMaskBuilder : MaskerBuilder :=
  ⟨[⟨"a crab", "1"⟩], some "init.png", some MaskSource.initImageAlpha, Option.none,
   Option.none, Option.none, Option.none, Option.none, Option.none, Option.none,
   some StylePreset.fantasyArt, Option.none⟩

theorem concatAll_append (xs ys : List String) :
    concatAll (xs ++ ys) = concatAll xs ++ concatAll ys := by
  induction xs with
  | nil => simp [concatAll]
  | cons a xs ih => simp [concatAll, ih, String.append_assoc]

theorem concatAll_promptChunks (boundary : String) (i : Nat) (ps : List TextPrompt) :
    concatAll (promptChunks boundary i ps) =
      concatAll ((promptParts i ps).map (fun p => partOpen boundary ++ p.render)) := by
  induction ps generalizing i with
  | nil => rfl
  | cons p rest ih =>
    simp only [promptChunks, promptParts, List.map_cons, concatAll, ih,
      MPartSpec.render, String.append_assoc]

/-- The image-to-image body decomposes into boundary-framed parts followed by
one closing marker. -/
theorem imageToImage_chunks_framed (t : ImageToImage) (boundary content : String) :
    concatAll (t.chunks boundary content) = framedBody boundary (t.partSpecs content) := by
  unfold ImageToImage.chunks ImageToImage.partSpecs framedBody
  by_cases h1 : t.init_image_mode = ImageMode.imageStrength <;>
    by_cases h2 : t.sampler = Sampler.none <;>
      simp [h1, h2, concatAll_append, concatAll, concatAll_promptChunks,
        MPartSpec.render, String.append_assoc]

/-- The upscale body decomposes into boundary-framed parts followed by one
closing marker. -/
theorem upscaler_chunks_framed (u : Upscaler) (boundary : String)
    (engine : UpscaleEngine) (content : String) :
    concatAll (u.chunks boundary engine content) =
      framedBody boundary (u.partSpecs engine content) := by
  unfold Upscaler.chunks Upscaler.partSpecs framedBody
  by_cases h1 : engine = UpscaleEngine.stableDiffusionX4LatentUpscaler <;>
    by_cases h2 : u.height = 0 <;>
      by_cases h3 : u.width = 0 <;>
        simp [h1, h2, h3, concatAll_append, concatAll, concatAll_promptChunks,
          MPartSpec.render, String.append_assoc]

theorem promptParts_name_long (i : Nat) (ps : List TextPrompt) :
    ∀ p ∈ promptParts i ps, 20 ≤ p.name.length := by
  induction ps generalizing i with
  | nil => intro p hp; simp [promptParts] at hp
  | cons q rest ih =>
    intro p hp
    simp only [promptParts, List.mem_cons] at hp
    have l1 : ("text_prompts[" : String).length = 13 := rfl
    have l2 : ("][text]" : String).length = 7 := rfl
    have l3 : ("][weight]" : String).length = 9 := rfl
    rcases hp with h | h | h
    · subst h; simp only [MPartSpec.name, String.length_append]; omega
    · subst h; simp only [MPartSpec.name, String.length_append]; omega
    · exact ih (i + 1) p h

theorem addExtras_file_parts (kvs : List (String × String)) :
    ∀ (fd : MultipartFormData),
      (∀ p ∈ fd.parts, p.isFile = false) →
      ∀ p ∈ (fd.addExtras kvs).parts, p.isFile = false := by
  induction kvs with
  | nil => intro fd h; exact h
  | cons kv rest ih =>
    intro fd h
    refine ih (fd.add_text kv.1 kv.2) ?_
    intro p hp
    simp only [MultipartFormData.add_text, List.mem_append, List.mem_singleton] at hp
    rcases hp with hp | hp
    · exact h p hp
    · subst hp; rfl

theorem addPromptTexts_file_parts (ps : List TextPrompt) :
    ∀ (fd : MultipartFormData) (i : Nat),
      (∀ p ∈ fd.parts, p.isFile = false) →
      ∀ p ∈ (fd.addPromptTexts i ps).parts, p.isFile = false := by
  induction ps with
  | nil => intro fd i h; exact h
  | cons q rest ih =>
    intro fd i h
    refine ih _ (i + 1) ?_
    intro p hp
    simp only [MultipartFormData.add_text, List.mem_append, List.mem_singleton] at hp
    rcases hp with (hp | hp) | hp
    · exact h p hp
    · subst hp; rfl
    · subst hp; rfl

/-- C8: for every image-to-image or upscale request and every boundary, a body
the encoder returns decomposes into parts that each open with
`"--" ++ boundary ++ CRLF`, followed by the terminal marker
`"--" ++ boundary ++ "--" ++ CRLF` written exactly once, at the end of the
body. -/
theorem C8_multipart_framing :
    (∀ (t : ImageToImage) (boundary : String) (fs : Fs) (body : String),
      t.to_multipart_form_data boundary fs = .ok body →
      ∃ parts, body = framedBody boundary parts) ∧
    (∀ (u : Upscaler) (boundary : String) (engine : UpscaleEngine) (fs : Fs) (body : String),
      u.to_multipart_form_data boundary engine fs = .ok body →
      ∃ parts, body = framedBody boundary parts) := by
  constructor
  · intro t boundary fs body h
    unfold ImageToImage.to_multipart_form_data at h
    cases hf : fs t.init_image with
    | none => rw [hf] at h; cases h
    | some content =>
      rw [hf] at h
      cases h
      exact ⟨t.partSpecs content, imageToImage_chunks_framed t boundary content⟩
  · intro u boundary engine fs body h
    unfold Upscaler.to_multipart_form_data at h
    cases hf : fs u.image with
    | none => rw [hf] at h; cases h
    | some content =>
      rw [hf] at h
      cases h
      exact ⟨u.partSpecs engine content, upscaler_chunks_framed u boundary engine content⟩

/-- Witness for C8 at a concrete request, boundary and filesystem. -/
theorem C8_multipart_framing_witness :
    (∃ parts, concatAll (sampleImageToImage.chunks "BOUND" "IMG") = framedBody "BOUND" parts) ∧
    (∃ parts,
      concatAll (sampleUpscaler.chunks "BOUND" UpscaleEngine.esrganV1X2Plus "IMG") =
        framedBody "BOUND" parts) :=
  ⟨C8_multipart_framing.1 sampleImageToImage "BOUND" sampleFs _ rfl,
   C8_multipart_framing.2 sampleUpscaler "BOUND" UpscaleEngine.esrganV1X2Plus sampleFs _ rfl⟩

/-- C4 counterexample: an upscaler built with only the image path set, encoded
for the latent upscaler engine, yields a body containing the `cfg_scale`,
`steps` and `seed` parts but no `text_prompts` part — so "the body contains
the text_prompts, cfg_scale, steps, and seed parts if and only if the engine
is the latent upscaler" fails on this built request. -/
theorem C4_no_prompt_parts_on_latent :
    (do
      let b ← UpscalerBuilder.new.setImage "img.png"
      b.build) = .ok sampleUpscaler ∧
    sampleUpscaler.partNames UpscaleEngine.stableDiffusionX4LatentUpscaler "IMG" =
      ["cfg_scale", "steps", "seed", "image"] ∧
    "text_prompts[0][text]" ∉
      sampleUpscaler.partNames UpscaleEngine.stableDiffusionX4LatentUpscaler "IMG" := by
  decide

/-- C4 (amended): for every upscaler and engine, the encoded body contains
the `cfg_scale`, `steps` and `seed` parts if and only if the engine is the
latent upscaler (`StableDiffusionX4LatentUpscaler`), and contains a
`text_prompts` part if and only if the engine is the latent upscaler and the
prompt list is non-empty; for `EsrganV1X2Plus` all of these parts are
omitted. -/
theorem C4_latent_only_fields (u : Upscaler) (engine : UpscaleEngine) (content : String) :
    ("cfg_scale" ∈ u.partNames engine content ↔
      engine = UpscaleEngine.stableDiffusionX4LatentUpscaler) ∧
    ("steps" ∈ u.partNames engine content ↔
      engine = UpscaleEngine.stableDiffusionX4LatentUpscaler) ∧
    ("seed" ∈ u.partNames engine content ↔
      engine = UpscaleEngine.stableDiffusionX4LatentUpscaler) ∧
    ("text_prompts[0][text]" ∈ u.partNames engine content ↔
      (engine = UpscaleEngine.stableDiffusionX4LatentUpscaler ∧ u.text_prompts ≠ [])) := by
  unfold Upscaler.partNames Upscaler.partSpecs
  cases engine <;>
    by_cases h2 : u.height = 0 <;>
      by_cases h3 : u.width = 0 <;>
        cases hps : u.text_prompts <;>
          simp [h2, h3, promptParts, MPartSpec.name] <;>
            exact Or.inl (by decide)

/-- C10: an upscaler builder with the image path set but neither height nor
width set builds successfully with both dimensions defaulted to 0, and the
encoded body then contains no `height` part and no `width` part for either
engine. -/
theorem C10_upscaler_zero_omission (b : UpscalerBuilder) (img : String)
    (h1 : b.image = some img) (h2 : b.height = Option.none)
    (h3 : b.width = Option.none) :
    ∃ u, b.build = .ok u ∧ u.height = 0 ∧ u.width = 0 ∧
      ∀ (engine : UpscaleEngine) (content : String),
        "height" ∉ u.partNames engine content ∧
        "width" ∉ u.partNames engine content := by
  refine ⟨{ image := img, height := 0, width := 0, text_prompts := b.text_prompts,
            cfg_scale := b.cfg_scale.getD 7, seed := b.seed.getD 0,
            steps := b.steps.getD 50 }, ?_, rfl, rfl, ?_⟩
  · unfold UpscalerBuilder.build
    rw [h1]
    simp [h2, h3]
  · intro engine content
    constructor <;>
      · intro hmem
        unfold Upscaler.partNames Upscaler.partSpecs at hmem
        cases engine <;> simp [MPartSpec.name] at hmem
        rcases hmem with ⟨p, hp, hpn⟩
        have hl := promptParts_name_long 0 b.text_prompts p hp
        cases p <;> simp [MPartSpec.name] at hl hpn <;> rw [hpn] at hl <;>
          exact absurd hl (by decide)

/-- Witness for C10 at a concrete builder holding only an image path. -/
theorem C10_upscaler_zero_omission_witness :
    ∃ u, UpscalerBuilder.build { UpscalerBuilder.new with image := some "img.png" } = .ok u ∧
      u.height = 0 ∧ u.width = 0 ∧
      ∀ (engine : UpscaleEngine) (content : String),
        "height" ∉ u.partNames engine content ∧
        "width" ∉ u.partNames engine content :=
  C10_upscaler_zero_omission
    { UpscalerBuilder.new with image := some "img.png" } "img.png" rfl rfl rfl

/-- C3: for every upscaler builder, build() errs whenever both height and
width are set and whenever the image path is unset, and the height and width
setters reject every value below 512 with the corresponding error carrying
that value. -/
theorem C3_upscaler_checks (b : UpscalerBuilder) (v : Nat) :
    (b.height.isSome → b.width.isSome → ∃ e, b.build = .error e) ∧
    (b.image = Option.none → b.build = .error .upscaleImagePathNotSet) ∧
    (v < 512 →
      b.setHeight v = .error (.upscaleHeightLessThan512 v) ∧
      b.setWidth v = .error (.upscaleWidthLessThan512 v)) := by
  refine ⟨?_, ?_, ?_⟩
  · intro hh hw
    unfold UpscalerBuilder.build
    cases hi : b.image with
    | none => exact ⟨.upscaleImagePathNotSet, rfl⟩
    | some img =>
      refine ⟨.upscaleWidthHeightConflict, ?_⟩
      simp [hh, hw]
  · intro hi
    unfold UpscalerBuilder.build
    rw [hi]
  · intro hv
    constructor <;> simp [UpscalerBuilder.setHeight, UpscalerBuilder.setWidth, hv]

/-- Witness for C3 at concrete builders and the value 511. -/
theorem C3_upscaler_checks_witness :
    (∃ e, UpscalerBuilder.build
      { UpscalerBuilder.new with height := some 512, width := some 512 } = .error e) ∧
    UpscalerBuilder.new.build = .error .upscaleImagePathNotSet ∧
    UpscalerBuilder.new.setHeight 511 = .error (.upscaleHeightLessThan512 511) ∧
    UpscalerBuilder.new.setWidth 511 = .error (.upscaleWidthLessThan512 511) :=
  ⟨(C3_upscaler_checks { UpscalerBuilder.new with height := some 512, width := some 512 } 0).1
      rfl rfl,
   (C3_upscaler_checks UpscalerBuilder.new 0).2.1 rfl,
   ((C3_upscaler_checks UpscalerBuilder.new 511).2.2 (by decide)).1,
   ((C3_upscaler_checks UpscalerBuilder.new 511).2.2 (by decide)).2⟩

/-- C5 counterexample: 100 is below 128, yet the height setter reports the
"not a multiple of 64" error rather than the "less than 128" error the claim
requires for every value below 128. -/
theorem C5_nonmultiple_below_128 :
    (100 : Nat) < 128 ∧
    TextToImageBuilder.new.setHeight 100 = .error (.heightNotMultipleOf64 100) ∧
    TextToImageBuilder.new.setHeight 100 ≠ .error (.heightLessThan128 100) := by
  decide

/-- C5 (amended): the text-to-image height/width setters reject every value
not divisible by 64 with the "not a multiple of 64" error carrying the value;
among values divisible by 64 they reject every value below 128 with the
"less than 128" error carrying the value; every value that is a multiple of
64 and at least 128 is accepted and stored. -/
theorem C5_dimension_setter_checks (b : TextToImageBuilder) (v : Nat) :
    (v % 64 ≠ 0 →
      b.setHeight v = .error (.heightNotMultipleOf64 v) ∧
      b.setWidth v = .error (.widthNotMultipleOf64 v)) ∧
    (v % 64 = 0 → v < 128 →
      b.setHeight v = .error (.heightLessThan128 v) ∧
      b.setWidth v = .error (.widthLessThan128 v)) ∧
    (v % 64 = 0 → 128 ≤ v →
      b.setHeight v = .ok { b with height := some v } ∧
      b.setWidth v = .ok { b with width := some v }) := by
  refine ⟨?_, ?_, ?_⟩ <;> intros <;>
    constructor <;>
      simp [TextToImageBuilder.setHeight, TextToImageBuilder.setWidth, *]

/-- Witness for C5 at the values 1023, 64 and 1024. -/
theorem C5_dimension_setter_checks_witness :
    TextToImageBuilder.new.setHeight 1023 = .error (.heightNotMultipleOf64 1023) ∧
    TextToImageBuilder.new.setHeight 64 = .error (.heightLessThan128 64) ∧
    TextToImageBuilder.new.setHeight 1024 =
      .ok { TextToImageBuilder.new with height := some 1024 } :=
  ⟨((C5_dimension_setter_checks TextToImageBuilder.new 1023).1 (by decide)).1,
   ((C5_dimension_setter_checks TextToImageBuilder.new 64).2.1 (by decide) (by decide)).1,
   ((C5_dimension_setter_checks TextToImageBuilder.new 1024).2.2 (by decide) (by decide)).1⟩

theorem add_file_parts (fd fd2 : MultipartFormData) (fs : Fs) (name path : String)
    (h : fd.add_file fs name path = .ok fd2) :
    ∃ ext content, fd2.parts = fd.parts ++ [.file name path ext content] := by
  unfold MultipartFormData.add_file at h
  cases he : extOf path with
  | none => rw [he] at h; cases h
  | some ext =>
    rw [he] at h
    cases hc : fs path with
    | none => rw [hc] at h; cases h
    | some c =>
      rw [hc] at h
      cases h
      exact ⟨ext, c, rfl⟩

theorem Masker.textFields_file_parts (m : Masker) (rand : Nat) :
    ∀ p ∈ (m.textFields rand).parts, p.isFile = false := by
  unfold Masker.textFields
  apply addPromptTexts_file_parts
  apply addExtras_file_parts
  intro p hp
  by_cases hs : m.sampler = Sampler.none <;>
    simp [hs, MultipartFormData.add_text, MultipartFormData.new] at hp <;>
      rcases hp with rfl | rfl | rfl | rfl | rfl | rfl | rfl | rfl <;> rfl

theorem Masker.no_mask_file_of_alpha (m : Masker)
    (hms : m.mask_source = MaskSource.initImageAlpha) (fs : Fs) (rand : Nat)
    (fd : MultipartFormData) (hfd : m.to_multipart_form_data fs rand = .ok fd) :
    ∀ part ∈ fd.parts, ¬(part.isFile = true ∧ part.name = "mask_image") := by
  unfold Masker.to_multipart_form_data at hfd
  rw [hms] at hfd
  simp only [ne_eq, not_true_eq_false, if_false, ite_false, reduceIte] at hfd
  cases haf : (m.textFields rand).add_file fs "init_image" m.init_image with
  | error e => rw [haf] at hfd; cases hfd
  | ok fd2 =>
    rw [haf] at hfd
    simp only [bind, Except.bind, pure, Except.pure, Except.ok.injEq] at hfd
    rcases add_file_parts _ _ _ _ _ haf with ⟨ext, content, hparts⟩
    intro part hpart hcontra
    rw [← hfd] at hpart
    simp only [MultipartFormData.end_body] at hpart
    rw [hparts] at hpart
    rcases List.mem_append.mp hpart with hin | hin
    · have := Masker.textFields_file_parts m rand part hin
      rw [hcontra.1] at this
      cases this
    · rcases List.mem_singleton.mp hin with rfl
      simp [MPart.name] at hcontra

/-- C2: for every masker builder state with an init image, a style preset
and a non-empty first prompt set, build() fails with the mask-image error
whenever the mask source is black or white and no mask image path was
supplied, and succeeds whenever the mask source is the init-image alpha
channel, in which case the encoded multipart body contains no `mask_image`
file part. -/
theorem C2_masker_mask_requirements (b : MaskerBuilder) (img : String)
    (sp : StylePreset) (p : TextPrompt) (rest : List TextPrompt)
    (himg : b.init_image = some img) (hsp : b.style_preset = some sp)
    (hps : b.text_prompts = p :: rest) (hp : p.text ≠ "") :
    ((b.mask_source = some MaskSource.maskImageBlack ∨
        b.mask_source = some MaskSource.maskImageWhite) →
      b.mask_image = Option.none → b.build = .error .maskImagePathNotSet) ∧
    (b.mask_source = some MaskSource.initImageAlpha →
      ∃ m, b.build = .ok m ∧
        ∀ (fs : Fs) (rand : Nat) (fd : MultipartFormData),
          m.to_multipart_form_data fs rand = .ok fd →
          ∀ part ∈ fd.parts, ¬(part.isFile = true ∧ part.name = "mask_image")) := by
  constructor
  · intro hms hmi
    unfold MaskerBuilder.build
    rw [himg, hsp, hps]
    rcases hms with hms | hms <;> rw [hms] <;> simp [hp, hmi]
  · intro hms
    refine ⟨{ text_prompts := p :: rest, init_image := img,
              mask_source := MaskSource.initImageAlpha,
              mask_image := b.mask_image.getD "",
              cfg_scale := b.cfg_scale.getD 7,
              clip_guidance_preset := b.clip_guidance_preset.getD ClipGuidancePreset.none,
              sampler := b.sampler.getD Sampler.none,
              samples := b.samples.getD 1, seed := b.seed.getD 0,
              steps := b.steps.getD 50, style_preset := sp,
              extras := b.extras.getD [] }, ?_, ?_⟩
    · unfold MaskerBuilder.build
      rw [himg, hsp, hps, hms]
      simp [hp]
    · intro fs rand fd hfd
      exact Masker.no_mask_file_of_alpha _ rfl fs rand fd hfd

/-- Witness for C2 at concrete masker builders. -/
theorem C2_masker_mask_requirements_witness :
    blackMaskBuilder.build = .error .maskImagePathNotSet ∧
    (∃ m, alphaMaskBuilder.build = .ok m ∧
      ∀ (fs : Fs) (rand : Nat) (fd : MultipartFormData),
        m.to_multipart_form_data fs rand = .ok fd →
        ∀ part ∈ fd.parts, ¬(part.isFile = true ∧ part.name = "mask_image")) :=
  ⟨(C2_masker_mask_requirements blackMaskBuilder "init.png" StylePreset.fantasyArt
      ⟨"a crab", "1"⟩ [] rfl rfl rfl (by decide)).1 (Or.inl rfl) rfl,
   (C2_masker_mask_requirements alphaMaskBuilder "init.png" StylePreset.fantasyArt
      ⟨"a crab", "1"⟩ [] rfl rfl rfl (by decide)).2 rfl⟩

/-- C6: every cfg_scale setter rejects values above 35, every samples setter
(defined on the text-to-image, image-to-image and masker builders) rejects
values above 10, every steps setter rejects values above 150, and the
stricter steps setters (text-to-image, masker, upscaler) also reject values
below 10, which the image-to-image steps setter accepts and stores. -/
theorem C6_shared_numeric_bounds (v : Nat) :
    (35 < v →
      (∀ b : TextToImageBuilder, b.setCfgScale v = .error (.cfgScaleGreaterThan35 v)) ∧
      (∀ b : ImageToImageBuilder, b.setCfgScale v = .error (.cfgScaleGreaterThan35 v)) ∧
      (∀ b : MaskerBuilder, b.setCfgScale v = .error (.cfgScaleGreaterThan35 v)) ∧
      (∀ b : UpscalerBuilder, b.setCfgScale v = .error (.cfgScaleGreaterThan35 v))) ∧
    (10 < v →
      (∀ b : TextToImageBuilder, b.setSamples v = .error (.samplesGreaterThan10 v)) ∧
      (∀ b : ImageToImageBuilder, b.setSamples v = .error (.samplesGreaterThan10 v)) ∧
      (∀ b : MaskerBuilder, b.setSamples v = .error (.samplesGreaterThan10 v))) ∧
    (150 < v →
      (∀ b : TextToImageBuilder, b.setSteps v = .error (.stepsGreaterThan150 v)) ∧
      (∀ b : ImageToImageBuilder, b.setSteps v = .error (.stepsGreaterThan150 v)) ∧
      (∀ b : MaskerBuilder, b.setSteps v = .error (.stepsGreaterThan150 v)) ∧
      (∀ b : UpscalerBuilder, b.setSteps v = .error (.stepsGreaterThan150 v))) ∧
    (v < 10 →
      (∀ b : TextToImageBuilder, b.setSteps v = .error (.stepsLessThan10 v)) ∧
      (∀ b : MaskerBuilder, b.setSteps v = .error (.stepsLessThan10 v)) ∧
      (∀ b : UpscalerBuilder, b.setSteps v = .error (.stepsLessThan10 v)) ∧
      (∀ b : ImageToImageBuilder, b.setSteps v = .ok { b with steps := some v })) := by
  refine ⟨fun hv => ⟨fun b => ?_, fun b => ?_, fun b => ?_, fun b => ?_⟩,
          fun hv => ⟨fun b => ?_, fun b => ?_, fun b => ?_⟩,
          fun hv => ⟨fun b => ?_, fun b => ?_, fun b => ?_, fun b => ?_⟩,
          fun hv => ⟨fun b => ?_, fun b => ?_, fun b => ?_, fun b => ?_⟩⟩ <;>
    simp only [TextToImageBuilder.setCfgScale, ImageToImageBuilder.setCfgScale,
      MaskerBuilder.setCfgScale, UpscalerBuilder.setCfgScale,
      TextToImageBuilder.setSamples, ImageToImageBuilder.setSamples,
      MaskerBuilder.setSamples, TextToImageBuilder.setSteps,
      ImageToImageBuilder.setSteps, MaskerBuilder.setSteps,
      UpscalerBuilder.setSteps] <;>
    split_ifs <;> first | rfl | omega

/-- Witness for C6 at the values 36, 11, 151 and 9. -/
theorem C6_shared_numeric_bounds_witness :
    TextToImageBuilder.new.setCfgScale 36 = .error (.cfgScaleGreaterThan35 36) ∧
    ImageToImageBuilder.new.setSamples 11 = .error (.samplesGreaterThan10 11) ∧
    MaskerBuilder.new.setSteps 151 = .error (.stepsGreaterThan150 151) ∧
    UpscalerBuilder.new.setSteps 9 = .error (.stepsLessThan10 9) ∧
    ImageToImageBuilder.new.setSteps 9 =
      .ok { ImageToImageBuilder.new with steps := some 9 } :=
  ⟨((C6_shared_numeric_bounds 36).1 (by decide)).1 TextToImageBuilder.new,
   ((C6_shared_numeric_bounds 11).2.1 (by decide)).2.1 ImageToImageBuilder.new,
   ((C6_shared_numeric_bounds 151).2.2.1 (by decide)).2.2.1 MaskerBuilder.new,
   ((C6_shared_numeric_bounds 9).2.2.2 (by decide)).2.2.1 UpscalerBuilder.new,
   ((C6_shared_numeric_bounds 9).2.2.2 (by decide)).2.2.2 ImageToImageBuilder.new⟩

/-- C7 counterexample: on the fresh builder the style preset is unset and the
prompt list is empty; build reports the style-preset error, not the
text-prompt error — so "fails with the text-prompt error whenever the prompt
list is empty" is false as stated. -/
theorem C7_style_check_precedes :
    TextToImageBuilder.new.text_prompts = [] ∧
    TextToImageBuilder.new.build = .error .stylePresetNotSet ∧
    TextToImageBuilder.new.build ≠ .error .textPromptEmpty := by
  decide

/-- C7 (amended): build fails with the style-preset error whenever the style
preset is unset; when the style preset is set, build fails with the
text-prompt error whenever the prompt list is empty or the text of the
first prompt is empty; emptiness is checked only on the first prompt, so build
succeeds with a non-empty first prompt even when later prompts are empty. -/
theorem C7_build_error_checks (b : TextToImageBuilder) :
    (b.style_preset = Option.none → b.build = .error .stylePresetNotSet) ∧
    (∀ sp, b.style_preset = some sp →
      (b.text_prompts = [] ∨ (∃ p rest, b.text_prompts = p :: rest ∧ p.text = "")) →
      b.build = .error .textPromptEmpty) ∧
    (∀ sp p rest, b.style_preset = some sp → b.text_prompts = p :: rest →
      p.text ≠ "" → ∃ t, b.build = .ok t) := by
  refine ⟨?_, ?_, ?_⟩
  · intro hsp
    unfold TextToImageBuilder.build
    rw [hsp]
  · intro sp hsp hps
    unfold TextToImageBuilder.build
    rw [hsp]
    rcases hps with hps | ⟨p, rest, hps, hpt⟩ <;> rw [hps]
    simp [hpt]
  · intro sp p rest hsp hps hpt
    unfold TextToImageBuilder.build
    rw [hsp, hps]
    simp [hpt]

/-- Witness for C7 at concrete builder states, one with an empty second
prompt. -/
theorem C7_build_error_checks_witness :
    TextToImageBuilder.new.build = .error .stylePresetNotSet ∧
    castleBuilder.build ≠ .error .textPromptEmpty ∧
    (∃ t, TextToImageBuilder.build
      { castleBuilder with text_prompts := [⟨"a castle", "1"⟩, ⟨"", "1"⟩] } = .ok t) ∧
    TextToImageBuilder.build { castleBuilder with text_prompts := [⟨"", "1"⟩] } =
      .error .textPromptEmpty :=
  ⟨(C7_build_error_checks TextToImageBuilder.new).1 rfl,
   by decide,
   (C7_build_error_checks
      { castleBuilder with text_prompts := [⟨"a castle", "1"⟩, ⟨"", "1"⟩] }).2.2
     StylePreset.digitalArt ⟨"a castle", "1"⟩ [⟨"", "1"⟩] rfl rfl (by decide),
   (C7_build_error_checks { castleBuilder with text_prompts := [⟨"", "1"⟩] }).2.1
     StylePreset.digitalArt rfl (Or.inr ⟨⟨"", "1"⟩, [], rfl, rfl⟩)⟩

/-- C9: for every client builder carrying a header map, build() returns an
error exactly when no URL has been set, and with a URL present it yields the
client with that URL, the method defaulting to GET, and the accumulated
headers. -/
theorem C9_client_build (b : ClientBuilder) (hm : List (String × String))
    (hh : b.headers = some hm) :
    ((∃ e, b.build = some (.error e)) ↔ b.url = Option.none) ∧
    (∀ u, b.url = some u →
      b.build = some (.ok ⟨u, b.method.getD "GET", hm⟩)) := by
  constructor
  · constructor
    · rintro ⟨e, he⟩
      cases hu : b.url with
      | none => rfl
      | some url =>
        unfold ClientBuilder.build at he
        rw [hu, hh] at he
        cases he
    · intro hu
      refine ⟨.clientBuildError "url is not set", ?_⟩
      unfold ClientBuilder.build
      rw [hu]
  · intro u hu
    unfold ClientBuilder.build
    rw [hu, hh]

/-- Witness for C9 at concrete client builders. -/
theorem C9_client_build_witness :
    ((∃ e, ClientBuilder.base.build = some (.error e)) ↔
      ClientBuilder.base.url = Option.none) ∧
    (∀ u, (ClientBuilder.base.setPath "/user/account").url = some u →
      (ClientBuilder.base.setPath "/user/account").build =
        some (.ok ⟨u, "GET", [("host", "api.stability.ai")]⟩)) :=
  ⟨(C9_client_build ClientBuilder.base [("host", "api.stability.ai")] rfl).1,
   (C9_client_build (ClientBuilder.base.setPath "/user/account")
      [("host", "api.stability.ai")] rfl).2⟩

/-- C1 counterexample: the end-to-end scenario builds and its serialized
fields omit the `sampler` key, but they still contain the
`clip_guidance_preset` key (with value `"NONE"`): the field has no
`skip_serializing_if` attribute, so the claim that both keys are omitted is
false. -/
theorem C1_clip_guidance_key_present :
    castleBuild = .ok castleImage ∧
    ("clip_guidance_preset", JValue.str "NONE") ∈ castleImage.toJsonFields ∧
    "sampler" ∉ castleImage.toJsonFields.map Prod.fst := by
  decide

/-- C1 (amended): a text-to-image builder with height and width set to 1024,
a style preset, a first prompt, and every other field unset builds
successfully, and the serialized fields omit the `sampler` key while
containing `clip_guidance_preset` with value `"NONE"`, `height` 1024,
`width` 1024, `cfg_scale` 7, `samples` 1, `seed` 0 and `steps` 50. -/
theorem C1_json_fields (b : TextToImageBuilder) (sp : StylePreset) (p : TextPrompt)
    (rest : List TextPrompt)
    (hh : b.height = some 1024) (hw : b.width = some 1024)
    (hsam : b.sampler = Option.none) (hclip : b.clip_guidance_preset = Option.none)
    (hcfg : b.cfg_scale = Option.none) (hsteps : b.steps = Option.none)
    (hsamples : b.samples = Option.none) (hseed : b.seed = Option.none)
    (hex : b.extras = Option.none)
    (hsp : b.style_preset = some sp) (hps : b.text_prompts = p :: rest)
    (hp : p.text ≠ "") :
    ∃ t, b.build = .ok t ∧
      t.toJsonFields =
        [("height", .num 1024), ("width", .num 1024),
         ("text_prompts", .prompts (p :: rest)), ("cfg_scale", .num 7),
         ("clip_guidance_preset", .str "NONE"),
         ("samples", .num 1), ("seed", .num 0), ("steps", .num 50),
         ("style_preset", .str sp.display)] := by
  refine ⟨⟨1024, 1024, p :: rest, 7, ClipGuidancePreset.none, Sampler.none,
           1, 0, 50, sp, []⟩, ?_, ?_⟩
  · unfold TextToImageBuilder.build
    rw [hsp, hps]
    simp [hp, hh, hw, hsam, hclip, hcfg, hsteps, hsamples, hseed, hex]
  · simp [TextToImage.toJsonFields, Sampler.isNone, ClipGuidancePreset.serdeName]

/-- Witness for C1 at the concrete scenario builder. -/
theorem C1_json_fields_witness :
    ∃ t, castleBuilder.build = .ok t ∧
      t.toJsonFields =
        [("height", .num 1024), ("width", .num 1024),
         ("text_prompts", .prompts [⟨"a castle", "1"⟩]), ("cfg_scale", .num 7),
         ("clip_guidance_preset", .str "NONE"),
         ("samples", .num 1), ("seed", .num 0), ("steps", .num 50),
         ("style_preset", .str StylePreset.digitalArt.display)] :=
  C1_json_fields castleBuilder StylePreset.digitalArt ⟨"a castle", "1"⟩ []
    rfl rfl rfl rfl rfl rfl rfl rfl rfl rfl rfl (by decide)

end StabilityRs
